import Mathlib

/-!
Verification of the ReCode change-history core (ChangeStore + HistoryController).

The definitions below are a shallow embedding of the TypeScript source:

* `CodeChange`, `CodeTimeDB` state and its operations (`insertChange`,
  `getChangeById`, `deleteChange`, `markCoveredByRollback`,
  `clearCoveredByRollback`) follow `database.ts` (the sql.js-backed store).
  Opaque bookkeeping columns (`timestamp`, `content_hash`, `created_at`) are
  omitted: nothing in the history logic reads them.
* The controller flows (`executeRollback`, `handleRestore`,
  `handleBatchRollback`) and the derived status predicates
  (`isLatestForFile`, `canRestore`, `isRollbackTarget`, `canRollbackTo`)
  follow `historyView.ts`.

Storage I/O failure is abstracted by the `broken` flag on `DB`: when set,
every mutating primitive (INSERT / UPDATE / DELETE together with the
subsequent `save()`) raises a storage-unavailable error and leaves the store
unchanged; reads are in-memory in sql.js and stay available.  The `Raw`
functions model the body of each try-block; the wrappers add the catch
handlers exactly where the source has them.
-/

namespace ReCode

/-- Operation type of a change record: ordinary save or rollback action. -/
inductive OpType
  | edit
  | rollback
deriving DecidableEq, Repr

/-- One change record, mirroring the `CodeChange` row of `database.ts`
(minus the opaque `timestamp` / `content_hash` / `created_at` columns). -/
structure CodeChange where
  id : Nat
  file_path : String
  old_content : String
  new_content : String
  diff : String
  lines_added : Nat
  lines_removed : Nat
  batch_id : Option String
  operation_type : OpType
  rollback_to_id : Option Nat
  covered_by_rollback_id : Option Nat
deriving DecidableEq, Repr

/-- Store state: the `changes` table (in insertion order), the sqlite
AUTOINCREMENT counter, and the storage-failure flag described above. -/
structure DB where
  records : List CodeChange
  nextId : Nat
  broken : Bool
deriving DecidableEq, Repr

/-- The one storage-level error kind of the spec. -/
inductive StorageError
  | storageUnavailable
deriving DecidableEq, Repr

/-- `insertChange` of `database.ts`: INSERT a row with the next id and return
`last_insert_rowid()`.  The source has no try/catch here, so an underlying
failure propagates to the caller. -/
def insertChange (db : DB) (filePath oldContent newContent diff : String)
    (linesAdded linesRemoved : Nat) (batchId : Option String)
    (operationType : OpType) (rollbackToId : Option Nat) :
    Except StorageError (DB × Nat) :=
  if db.broken then .error .storageUnavailable
  else
    let c : CodeChange :=
      { id := db.nextId
        file_path := filePath
        old_content := oldContent
        new_content := newContent
        diff := diff
        lines_added := linesAdded
        lines_removed := linesRemoved
        batch_id := batchId
        operation_type := operationType
        rollback_to_id := rollbackToId
        covered_by_rollback_id := none }
    .ok ({ db with records := db.records ++ [c], nextId := db.nextId + 1 }, db.nextId)

/-- `getChangeById`: SELECT by primary key. -/
def getChangeById (db : DB) (id : Nat) : Option CodeChange :=
  db.records.find? (fun r => r.id == id)

/-- Body of the try-block of `deleteChange`: DELETE WHERE id = ? and save. -/
def deleteChangeRaw (db : DB) (id : Nat) : Except StorageError DB :=
  if db.broken then .error .storageUnavailable
  else .ok { db with records := db.records.filter (fun r => !(r.id == id)) }

/-- `deleteChange` of `database.ts`: returns `true` on success, and the
catch handler turns any storage failure into `false`. -/
def deleteChange (db : DB) (id : Nat) : DB × Bool :=
  match deleteChangeRaw db id with
  | .ok db1 => (db1, true)
  | .error _ => (db, false)

/-- The WHERE clause shared by the COUNT and the UPDATE of
`markCoveredByRollback`: `file_path = ? AND id > rollbackToId AND
id < rollbackId`.  Note: the source has no `covered_by_rollback_id IS NULL`
conjunct. -/
def coveredInterval (filePath : String) (rollbackId rollbackToId : Nat)
    (r : CodeChange) : Bool :=
  r.file_path == filePath && decide (rollbackToId < r.id) && decide (r.id < rollbackId)

/-- Row update performed by the UPDATE statement of `markCoveredByRollback`. -/
def markUpdate (filePath : String) (rollbackId rollbackToId : Nat)
    (r : CodeChange) : CodeChange :=
  if coveredInterval filePath rollbackId rollbackToId r then
    { r with covered_by_rollback_id := some rollbackId }
  else r

/-- Body of the try-block of `markCoveredByRollback`: COUNT the rows in the
open interval, UPDATE them, save if the count is positive. -/
def markCoveredByRollbackRaw (db : DB) (filePath : String)
    (rollbackId rollbackToId : Nat) : Except StorageError (DB × Nat) :=
  if db.broken then .error .storageUnavailable
  else
    let affectedCount :=
      (db.records.filter (coveredInterval filePath rollbackId rollbackToId)).length
    .ok ({ db with
            records := db.records.map (markUpdate filePath rollbackId rollbackToId) },
         affectedCount)

/-- `markCoveredByRollback` of `database.ts`: the catch handler logs and
returns 0 instead of surfacing the failure. -/
def markCoveredByRollback (db : DB) (filePath : String)
    (rollbackId rollbackToId : Nat) : DB × Nat :=
  match markCoveredByRollbackRaw db filePath rollbackId rollbackToId with
  | .ok res => res
  | .error _ => (db, 0)

/-- Row update performed by the UPDATE statement of `clearCoveredByRollback`. -/
def clearUpdate (rollbackId : Nat) (r : CodeChange) : CodeChange :=
  if r.covered_by_rollback_id == some rollbackId then
    { r with covered_by_rollback_id := none }
  else r

/-- Body of the try-block of `clearCoveredByRollback`: COUNT then UPDATE all
records (of any file) whose `covered_by_rollback_id` equals `rollbackId`. -/
def clearCoveredByRollbackRaw (db : DB) (rollbackId : Nat) :
    Except StorageError (DB × Nat) :=
  if db.broken then .error .storageUnavailable
  else
    let affectedCount :=
      (db.records.filter (fun r => r.covered_by_rollback_id == some rollbackId)).length
    .ok ({ db with records := db.records.map (clearUpdate rollbackId) }, affectedCount)

/-- `clearCoveredByRollback` of `database.ts`: the catch handler logs and
returns 0 instead of surfacing the failure. -/
def clearCoveredByRollback (db : DB) (rollbackId : Nat) : DB × Nat :=
  match clearCoveredByRollbackRaw db rollbackId with
  | .ok res => res
  | .error _ => (db, 0)

/-! Derived status predicates, as computed in `_getHtmlForWebview` of
`historyView.ts` over a list of records. -/

/-- The `latestIdByFile` fold of `historyView.ts`: maximum id among the
records of `filePath` in `changes`. -/
def latestIdForFile (changes : List CodeChange) (filePath : String) : Option Nat :=
  changes.foldl
    (fun acc r =>
      if r.file_path == filePath then
        match acc with
        | none => some r.id
        | some m => if m < r.id then some r.id else some m
      else acc)
    none

/-- `isLatestForFile`: the record's id is the per-file maximum. -/
def isLatestForFile (changes : List CodeChange) (c : CodeChange) : Bool :=
  latestIdForFile changes c.file_path == some c.id

/-- `canRestore`: a rollback record that is still the latest of its file. -/
def canRestore (changes : List CodeChange) (c : CodeChange) : Bool :=
  c.operation_type == .rollback && isLatestForFile changes c

/-- `isRollbackTarget`: some rollback record of the same file points at `c`. -/
def isRollbackTarget (changes : List CodeChange) (c : CodeChange) : Bool :=
  changes.any (fun r =>
    r.operation_type == .rollback && r.rollback_to_id == some c.id &&
      r.file_path == c.file_path)

/-- The `isSelectable` condition of the webview (the spec's `canRollbackTo`):
not covered, not itself a rollback record, not already a rollback target. -/
def canRollbackTo (changes : List CodeChange) (c : CodeChange) : Bool :=
  c.covered_by_rollback_id == none && !(c.operation_type == .rollback) &&
    !(isRollbackTarget changes c)

/-! The controller layer of `historyView.ts`.  The set of open workspaces
(`workspaceInstances`) is an association list from workspace root to store
state; the file system is a map from absolute path to content. -/

/-- On-disk file system: absolute path to content, `none` when absent. -/
abbrev Disk := String → Option String

/-- `fs.existsSync(p) ? fs.readFileSync(p) : ''` as used before a rollback. -/
def readFileOrEmpty (disk : Disk) (p : String) : String :=
  (disk p).getD ""

/-- `writeFileContent` of `historyView.ts` (directory creation is implicit). -/
def writeFileContent (disk : Disk) (p content : String) : Disk :=
  fun q => if q == p then some content else disk q

/-- `path.join(root, relative)`. -/
def pathJoin (root relative : String) : String :=
  root ++ "/" ++ relative

/-- `path.basename`: the part after the last `/` (the whole path when there
is no `/`). -/
def baseName (p : String) : String :=
  String.mk ((p.data.reverse.takeWhile (fun ch => !(ch == '/'))).reverse)

/-- `content.split('\n').length` of the source: one more than the number of
newline characters. -/
def splitLineCount (s : String) : Nat :=
  (s.data.filter (fun ch => ch == '\n')).length + 1

/-- `generateSimpleDiff` of `historyView.ts`. -/
def generateSimpleDiff (oldContent newContent : String) : String :=
  let oldLines := splitLineCount oldContent
  let newLines := splitLineCount newContent
  "@@ -1," ++ toString oldLines ++ " +1," ++ toString newLines ++ " @@"

/-- The open workspaces: root path paired with that workspace's store. -/
abbrev Workspaces := List (String × DB)

/-- The workspace filter of `findChange`: when a workspace name is given,
only roots whose basename matches are searched. -/
def workspaceMatches (workspaceName : Option String) (root : String) : Bool :=
  match workspaceName with
  | none => true
  | some n => baseName root == n

/-- `findChange` of `historyView.ts`: first workspace (in map order) whose
store contains the id, returning the record, the root and that store. -/
def findChange (ws : Workspaces) (changeId : Nat)
    (workspaceName : Option String) : Option (CodeChange × String × DB) :=
  match ws with
  | [] => none
  | (root, db) :: rest =>
    if workspaceMatches workspaceName root then
      match getChangeById db changeId with
      | some c => some (c, root, db)
      | none => findChange rest changeId workspaceName
    else findChange rest changeId workspaceName

/-- `workspaceInstances.get(root)`. -/
def lookupDb (ws : Workspaces) (root : String) : Option DB :=
  (ws.find? (fun p => p.1 == root)).map (fun p => p.2)

/-- Replace the store of workspace `root`. -/
def setDb (ws : Workspaces) (root : String) (db : DB) : Workspaces :=
  ws.map (fun p => if p.1 == root then (p.1, db) else p)

/-- Typed failures of the controller handlers, one per error path of the
source (each surfaces as a distinct `showErrorMessage`). -/
inductive OpError
  | notFound
  | noInstance
  | notRollbackRecord
  | storage (e : StorageError)
deriving DecidableEq, Repr

/-- Result of a successful `executeRollback`. -/
structure RollbackOutcome where
  ws : Workspaces
  disk : Disk
  rollbackId : Nat
  writtenContent : String

/-- `executeRollback` of `historyView.ts` (the commit phase of the rollback
protocol): find the target record, read the current on-disk content, insert
a rollback record, mark covered records, write the target's `new_content`.
No eligibility re-validation is performed by the source. -/
def executeRollback (ws : Workspaces) (disk : Disk) (targetChangeId : Nat)
    (workspaceName : Option String) : Except OpError RollbackOutcome :=
  match findChange ws targetChangeId workspaceName with
  | none => .error .notFound
  | some (change, root, db) =>
    match lookupDb ws root with
    | none => .error .noInstance
    | some _ =>
      let filePath := pathJoin root change.file_path
      let currentContent := readFileOrEmpty disk filePath
      let diff := generateSimpleDiff currentContent change.new_content
      match insertChange db change.file_path currentContent change.new_content
          diff 0 0 none .rollback (some targetChangeId) with
      | .error e => .error (.storage e)
      | .ok (db1, rollbackId) =>
        let db2 := (markCoveredByRollback db1 change.file_path rollbackId targetChangeId).1
        let disk1 := writeFileContent disk filePath change.new_content
        .ok { ws := setDb ws root db2
              disk := disk1
              rollbackId := rollbackId
              writtenContent := change.new_content }

/-- Result of a successful `handleRestore`. -/
structure RestoreOutcome where
  ws : Workspaces
  disk : Disk

/-- `handleRestore` of `historyView.ts`: reject non-rollback records, then
write the record's `old_content` back, clear the coverage marks pointing at
it, and delete it.  The source checks only `operation_type`, not
latest-ness. -/
def handleRestore (ws : Workspaces) (disk : Disk) (changeId : Nat)
    (workspaceName : Option String) : Except OpError RestoreOutcome :=
  match findChange ws changeId workspaceName with
  | none => .error .notFound
  | some (change, root, db) =>
    if !(change.operation_type == .rollback) then .error .notRollbackRecord
    else
      match lookupDb ws root with
      | none => .error .noInstance
      | some _ =>
        let filePath := pathJoin root change.file_path
        let disk1 := writeFileContent disk filePath change.old_content
        let db1 := (clearCoveredByRollback db changeId).1
        let db2 := (deleteChange db1 changeId).1
        .ok { ws := setDb ws root db2, disk := disk1 }

/-! Batch rollback (`handleBatchRollback` of `historyView.ts`). -/

/-- Grouping key `root::file_path` of the collection phase. -/
def fileKey (root filePath : String) : String :=
  root ++ "::" ++ filePath

/-- Append an entry to the group of `key`, creating the group at the end on
first occurrence (JS `Map` preserves key insertion order). -/
def addToGroup (groups : List (String × List (CodeChange × String)))
    (key : String) (entry : CodeChange × String) :
    List (String × List (CodeChange × String)) :=
  match groups with
  | [] => [(key, [entry])]
  | (k, g) :: rest =>
    if k == key then (k, g ++ [entry]) :: rest
    else (k, g) :: addToGroup rest key entry

/-- Collection phase: resolve each requested id via `findChange` (skipping
ids that resolve nowhere) and group the results by `root::file_path`. -/
def collectChanges (ws : Workspaces) (ids : List (Nat × Option String)) :
    List (String × List (CodeChange × String)) :=
  ids.foldl
    (fun groups idPair =>
      match findChange ws idPair.1 idPair.2 with
      | none => groups
      | some (change, root, _) =>
        addToGroup groups (fileKey root change.file_path) (change, root))
    []

/-- Per group, the oldest collected record (sort ascending by id, take the
head) becomes the rollback target for that file. -/
def oldestOfGroup (g : List (CodeChange × String)) :
    Option (CodeChange × String) :=
  match g with
  | [] => none
  | x :: xs => some (xs.foldl (fun best y => if y.1.id < best.1.id then y else best) x)

/-- The per-file rollback targets of the batch. -/
def rollbackTargets (groups : List (String × List (CodeChange × String))) :
    List (CodeChange × String) :=
  groups.filterMap (fun p => oldestOfGroup p.2)

/-- Accumulated state of the batch loop: the stores, the file system and the
success/failure counters. -/
structure BatchState where
  ws : Workspaces
  disk : Disk
  successCount : Nat
  failCount : Nat

/-- One iteration of the batch loop: missing instance or a storage failure
counts as a per-file failure and leaves everything untouched; otherwise the
rollback record is inserted with the shared batch id, coverage is marked and
the target content is written. -/
def batchRollbackOne (batchId : String) (st : BatchState)
    (target : CodeChange × String) : BatchState :=
  match lookupDb st.ws target.2 with
  | none => { st with failCount := st.failCount + 1 }
  | some db =>
    let change := target.1
    let root := target.2
    let filePath := pathJoin root change.file_path
    let currentContent := readFileOrEmpty st.disk filePath
    let diff := generateSimpleDiff currentContent change.new_content
    match insertChange db change.file_path currentContent change.new_content
        diff 0 0 (some batchId) .rollback (some change.id) with
    | .error _ => { st with failCount := st.failCount + 1 }
    | .ok (db1, rollbackId) =>
      let db2 := (markCoveredByRollback db1 change.file_path rollbackId change.id).1
      let disk1 := writeFileContent st.disk filePath change.new_content
      { ws := setDb st.ws root db2
        disk := disk1
        successCount := st.successCount + 1
        failCount := st.failCount }

/-- The execution phase of the batch: fold over the targets. -/
def batchRollbackLoop (batchId : String) (targets : List (CodeChange × String))
    (st : BatchState) : BatchState :=
  targets.foldl (batchRollbackOne batchId) st

/-- `handleBatchRollback` of `historyView.ts` (after user confirmation):
collect and group the selected records, pick the oldest per file, and run
the loop with the shared batch id derived from the current time. -/
def handleBatchRollback (ws : Workspaces) (disk : Disk)
    (ids : List (Nat × Option String)) (now : Nat) : BatchState :=
  batchRollbackLoop ("batch_" ++ toString now)
    (rollbackTargets (collectChanges ws ids))
    { ws := ws, disk := disk, successCount := 0, failCount := 0 }

/-! Concrete scenario data.

Scenario A/B of the spec: file `a.ts` with two edit records, a rollback to
record 1, and the subsequent restore.  The nested scenario (three edits and
two stacked rollbacks) exercises the overwriting behavior of
`markCoveredByRollback`. -/

/-- Scenario A, record 1: edit `"x" → "xy"`. -/
def recA1 : CodeChange :=
  { id := 1, file_path := "a.ts", old_content := "x", new_content := "xy"
    diff := "d1", lines_added := 0, lines_removed := 0, batch_id := none
    operation_type := .edit, rollback_to_id := none, covered_by_rollback_id := none }

/-- Scenario A, record 2: edit `"xy" → "xyz"`. -/
def recA2 : CodeChange :=
  { id := 2, file_path := "a.ts", old_content := "xy", new_content := "xyz"
    diff := "d2", lines_added := 0, lines_removed := 0, batch_id := none
    operation_type := .edit, rollback_to_id := none, covered_by_rollback_id := none }

/-- Scenario A, record 3: the rollback record created by `commitRollback(1)`
with current content `"xyz"`. -/
def recA3 : CodeChange :=
  { id := 3, file_path := "a.ts", old_content := "xyz", new_content := "xy"
    diff := generateSimpleDiff "xyz" "xy", lines_added := 0, lines_removed := 0
    batch_id := none, operation_type := .rollback, rollback_to_id := some 1
    covered_by_rollback_id := none }

/-- Scenario A: the store before the rollback. -/
def dbA : DB := { records := [recA1, recA2], nextId := 3, broken := false }

/-- Scenario A: the single workspace `"w"`. -/
def wsA : Workspaces := [("w", dbA)]

/-- Scenario A: on-disk content of `w/a.ts` is `"xyz"`. -/
def diskA : Disk := fun p => if p == "w/a.ts" then some "xyz" else none

/-- Scenario A: the store after `commitRollback(1)` — record 2 covered by 3. -/
def dbA2 : DB :=
  { records := [recA1, { recA2 with covered_by_rollback_id := some 3 }, recA3]
    nextId := 4, broken := false }

/-- Scenario B: the workspace after the rollback of Scenario A. -/
def wsA2 : Workspaces := [("w", dbA2)]

/-- Scenario B: on-disk content after the rollback is `"xy"`. -/
def diskA2 : Disk := fun p => if p == "w/a.ts" then some "xy" else none

/-- Nested scenario, record 1: edit `"" → "a"`. -/
def recN1 : CodeChange :=
  { id := 1, file_path := "a.ts", old_content := "", new_content := "a"
    diff := "d1", lines_added := 0, lines_removed := 0, batch_id := none
    operation_type := .edit, rollback_to_id := none, covered_by_rollback_id := none }

/-- Nested scenario, record 2: edit `"a" → "b"`. -/
def recN2 : CodeChange :=
  { id := 2, file_path := "a.ts", old_content := "a", new_content := "b"
    diff := "d2", lines_added := 0, lines_removed := 0, batch_id := none
    operation_type := .edit, rollback_to_id := none, covered_by_rollback_id := none }

/-- Nested scenario, record 3: edit `"b" → "c"`. -/
def recN3 : CodeChange :=
  { id := 3, file_path := "a.ts", old_content := "b", new_content := "c"
    diff := "d3", lines_added := 0, lines_removed := 0, batch_id := none
    operation_type := .edit, rollback_to_id := none, covered_by_rollback_id := none }

/-- Nested scenario, record 4: the rollback record targeting record 2. -/
def recN4 : CodeChange :=
  { id := 4, file_path := "a.ts", old_content := "c", new_content := "b"
    diff := generateSimpleDiff "c" "b", lines_added := 0, lines_removed := 0
    batch_id := none, operation_type := .rollback, rollback_to_id := some 2
    covered_by_rollback_id := none }

/-- Nested scenario, record 5: the rollback record targeting record 1. -/
def recN5 : CodeChange :=
  { id := 5, file_path := "a.ts", old_content := "b", new_content := "a"
    diff := generateSimpleDiff "b" "a", lines_added := 0, lines_removed := 0
    batch_id := none, operation_type := .rollback, rollback_to_id := some 1
    covered_by_rollback_id := none }

/-- Nested scenario: three edits, before any rollback. -/
def dbN0 : DB := { records := [recN1, recN2, recN3], nextId := 4, broken := false }

/-- Nested scenario: after rolling back to record 2 (record 3 covered by 4). -/
def dbN1 : DB :=
  { records := [recN1, recN2, { recN3 with covered_by_rollback_id := some 4 }, recN4]
    nextId := 5, broken := false }

/-- Nested scenario: after additionally rolling back to record 1 — the second
marking pass overwrote record 3's coverage (4 became 5). -/
def dbN2 : DB :=
  { records :=
      [recN1,
       { recN2 with covered_by_rollback_id := some 5 },
       { recN3 with covered_by_rollback_id := some 5 },
       { recN4 with covered_by_rollback_id := some 5 },
       recN5]
    nextId := 6, broken := false }

/-- Nested scenario: after `restore(5)` — every record cleared to uncovered,
including record 3, which before the second rollback was covered by 4. -/
def dbN3 : DB :=
  { records := [recN1, recN2, recN3, recN4], nextId := 6, broken := false }

/-- Nested scenario disk state before the second rollback. -/
def diskN1 : Disk := fun p => if p == "w/a.ts" then some "b" else none

/-- Nested scenario disk state after the second rollback. -/
def diskN2 : Disk := fun p => if p == "w/a.ts" then some "a" else none

/-- Non-latest-rollback scenario, record 2: a rollback record targeting 1. -/
def recR2 : CodeChange :=
  { id := 2, file_path := "a.ts", old_content := "xy", new_content := "x"
    diff := "d2", lines_added := 0, lines_removed := 0, batch_id := none
    operation_type := .rollback, rollback_to_id := some 1
    covered_by_rollback_id := none }

/-- Non-latest-rollback scenario, record 3: an edit made after the rollback,
so record 2 is no longer the latest record of its file. -/
def recR3 : CodeChange :=
  { id := 3, file_path := "a.ts", old_content := "x", new_content := "x2"
    diff := "d3", lines_added := 0, lines_removed := 0, batch_id := none
    operation_type := .edit, rollback_to_id := none, covered_by_rollback_id := none }

/-- Non-latest-rollback scenario store. -/
def dbR : DB := { records := [recA1, recR2, recR3], nextId := 4, broken := false }

/-- A broken store holding the nested scenario's pre-rollback records: every
mutating primitive raises storage-unavailable. -/
def dbBroken : DB := { records := [recN1, recN2, recN3], nextId := 4, broken := true }

/-- Batch scenario: workspace A's store, one edit record for `fa.ts`. -/
def recCA1 : CodeChange :=
  { id := 1, file_path := "fa.ts", old_content := "p", new_content := "q"
    diff := "d1", lines_added := 0, lines_removed := 0, batch_id := none
    operation_type := .edit, rollback_to_id := none, covered_by_rollback_id := none }

/-- Batch scenario: workspace B's record 5 for `fb.ts`. -/
def recCB5 : CodeChange :=
  { id := 5, file_path := "fb.ts", old_content := "r", new_content := "s"
    diff := "d5", lines_added := 0, lines_removed := 0, batch_id := none
    operation_type := .edit, rollback_to_id := none, covered_by_rollback_id := none }

/-- Batch scenario: workspace A's healthy store. -/
def dbCA : DB := { records := [recCA1], nextId := 2, broken := false }

/-- Batch scenario: workspace B's store, whose storage is failing. -/
def dbCB : DB := { records := [recCB5], nextId := 6, broken := true }

/-- Batch scenario: two workspaces, the second one failing. -/
def wsC : Workspaces := [("wA", dbCA), ("wB", dbCB)]

/-- Batch scenario disk: both files present. -/
def diskC : Disk :=
  fun p => if p == "wA/fa.ts" then some "q2" else if p == "wB/fb.ts" then some "s2" else none

/-! General lemmas about the store primitives. -/

theorem markCoveredByRollback_eq (db : DB) (f : String) (rbId rbToId : Nat)
    (h : db.broken = false) :
    markCoveredByRollback db f rbId rbToId =
      ({ db with records := db.records.map (markUpdate f rbId rbToId) },
       (db.records.filter (coveredInterval f rbId rbToId)).length) := by
  simp [markCoveredByRollback, markCoveredByRollbackRaw, h]

theorem clearCoveredByRollback_eq (db : DB) (rbId : Nat) (h : db.broken = false) :
    clearCoveredByRollback db rbId =
      ({ db with records := db.records.map (clearUpdate rbId) },
       (db.records.filter (fun r => r.covered_by_rollback_id == some rbId)).length) := by
  simp [clearCoveredByRollback, clearCoveredByRollbackRaw, h]

theorem deleteChange_eq (db : DB) (id : Nat) (h : db.broken = false) :
    deleteChange db id =
      ({ db with records := db.records.filter (fun r => !(r.id == id)) }, true) := by
  simp [deleteChange, deleteChangeRaw, h]

theorem insertChange_eq (db : DB) (filePath oldContent newContent diff : String)
    (la lr : Nat) (batchId : Option String) (opType : OpType) (rbTo : Option Nat)
    (h : db.broken = false) :
    insertChange db filePath oldContent newContent diff la lr batchId opType rbTo =
      .ok ({ db with
              records := db.records ++
                [{ id := db.nextId, file_path := filePath, old_content := oldContent,
                   new_content := newContent, diff := diff, lines_added := la,
                   lines_removed := lr, batch_id := batchId, operation_type := opType,
                   rollback_to_id := rbTo, covered_by_rollback_id := none }],
              nextId := db.nextId + 1 },
            db.nextId) := by
  simp [insertChange, h]

theorem coveredInterval_set_covered (f : String) (a b : Nat) (r : CodeChange)
    (x : Option Nat) :
    coveredInterval f a b { r with covered_by_rollback_id := x } =
      coveredInterval f a b r := rfl

theorem markUpdate_file_path (f : String) (a b : Nat) (r : CodeChange) :
    (markUpdate f a b r).file_path = r.file_path := by
  unfold markUpdate
  split <;> rfl

theorem markUpdate_id (f : String) (a b : Nat) (r : CodeChange) :
    (markUpdate f a b r).id = r.id := by
  unfold markUpdate
  split <;> rfl

theorem coveredInterval_markUpdate (f : String) (a b : Nat) (r : CodeChange) :
    coveredInterval f a b (markUpdate f a b r) = coveredInterval f a b r := by
  unfold markUpdate
  split <;> rfl

theorem markUpdate_markUpdate (f : String) (a b : Nat) (r : CodeChange) :
    markUpdate f a b (markUpdate f a b r) = markUpdate f a b r := by
  unfold markUpdate
  by_cases h : coveredInterval f a b r = true
  · simp [h, coveredInterval_set_covered]
  · simp [h]

theorem lookupDb_setDb (ws : Workspaces) (root : String) (db db0 : DB)
    (h : lookupDb ws root = some db0) :
    lookupDb (setDb ws root db) root = some db := by
  induction ws with
  | nil => simp [lookupDb] at h
  | cons hd tl ih =>
    by_cases hhd : hd.1 == root
    · simp [lookupDb, setDb, List.find?, hhd]
    · simp only [lookupDb, setDb, List.map_cons, List.find?, hhd, if_neg] at h ⊢
      simp only [hhd, if_false, Bool.false_eq_true]
      exact ih (by simpa [lookupDb] using h)

theorem clearUpdate_id (cid : Nat) (r : CodeChange) :
    (clearUpdate cid r).id = r.id := by
  unfold clearUpdate
  split <;> rfl

/-! Case equations for `handleRestore`. -/

theorem handleRestore_none (ws : Workspaces) (disk : Disk) (changeId : Nat)
    (wsName : Option String) (hf : findChange ws changeId wsName = none) :
    handleRestore ws disk changeId wsName = .error .notFound := by
  simp [handleRestore, hf]

theorem handleRestore_notRollback (ws : Workspaces) (disk : Disk) (changeId : Nat)
    (wsName : Option String) (change : CodeChange) (root : String) (db : DB)
    (hf : findChange ws changeId wsName = some (change, root, db))
    (hop : ¬ (change.operation_type = .rollback)) :
    handleRestore ws disk changeId wsName = .error .notRollbackRecord := by
  simp [handleRestore, hf, hop]

theorem handleRestore_noInstance (ws : Workspaces) (disk : Disk) (changeId : Nat)
    (wsName : Option String) (change : CodeChange) (root : String) (db : DB)
    (hf : findChange ws changeId wsName = some (change, root, db))
    (hop : change.operation_type = .rollback)
    (hl : lookupDb ws root = none) :
    handleRestore ws disk changeId wsName = .error .noInstance := by
  simp [handleRestore, hf, hop, hl]

theorem handleRestore_ok (ws : Workspaces) (disk : Disk) (changeId : Nat)
    (wsName : Option String) (change : CodeChange) (root : String) (db db0 : DB)
    (hf : findChange ws changeId wsName = some (change, root, db))
    (hop : change.operation_type = .rollback)
    (hl : lookupDb ws root = some db0) :
    handleRestore ws disk changeId wsName =
      .ok { ws := setDb ws root
              (deleteChange (clearCoveredByRollback db changeId).1 changeId).1
            disk := writeFileContent disk (pathJoin root change.file_path)
              change.old_content } := by
  simp [handleRestore, hf, hop, hl]

/-- C3 counterexample: record 2 of `dbR` is a rollback record that is no
longer the latest record of its file (record 3 came after), so
`canRestore` is false — yet `handleRestore` succeeds and mutates the store,
deleting record 2: the handler checks only `operation_type`, not
latest-ness. -/
theorem claim3_counterexample :
    canRestore dbR.records recR2 = false ∧
    (handleRestore [("w", dbR)] diskA2 2 none).toOption.isSome = true ∧
    (handleRestore [("w", dbR)] diskA2 2 none).toOption.map (fun o => o.ws) =
      some [("w", { records := [recA1, recR3], nextId := 4, broken := false })] := by
  decide

/-- C3 amended: `handleRestore` fails (performing no mutation) exactly when
the record cannot be found, its workspace instance is missing, or the record
is not a rollback record; the latest-record half of `canRestore` is only used
to gate the UI button and is not enforced by the handler, so a rollback
record that is no longer latest is restored as well. -/
theorem claim3_restore_guard (ws : Workspaces) (disk : Disk) (changeId : Nat)
    (wsName : Option String) :
    (handleRestore ws disk changeId wsName).toOption.isSome = true ↔
      ∃ change root db, findChange ws changeId wsName = some (change, root, db) ∧
        change.operation_type = .rollback ∧ (lookupDb ws root).isSome = true := by
  cases hf : findChange ws changeId wsName with
  | none =>
    rw [handleRestore_none ws disk changeId wsName hf]
    simp [Except.toOption]
  | some x =>
    obtain ⟨change, root, db⟩ := x
    by_cases hop : change.operation_type = .rollback
    · cases hl : lookupDb ws root with
      | none =>
        rw [handleRestore_noInstance ws disk changeId wsName change root db hf hop hl]
        simp only [Except.toOption, Option.isSome_none, Bool.false_eq_true, false_iff]
        rintro ⟨c, r, d, hcd, hcop, hsome⟩
        obtain ⟨rfl, rfl, rfl⟩ : c = change ∧ r = root ∧ d = db := by
          have := Option.some.inj hcd.symm
          exact ⟨congrArg Prod.fst this,
            congrArg Prod.fst (congrArg Prod.snd this),
            congrArg Prod.snd (congrArg Prod.snd this)⟩
        rw [hl] at hsome
        simp at hsome
      | some db0 =>
        rw [handleRestore_ok ws disk changeId wsName change root db db0 hf hop hl]
        simp only [Except.toOption, Option.isSome_some, true_iff]
        exact ⟨change, root, db, rfl, hop, by simp [hl]⟩
    · rw [handleRestore_notRollback ws disk changeId wsName change root db hf hop]
      simp only [Except.toOption, Option.isSome_none, Bool.false_eq_true, false_iff]
      rintro ⟨c, r, d, hcd, hcop, hsome⟩
      obtain ⟨rfl, rfl, rfl⟩ : c = change ∧ r = root ∧ d = db := by
        have := Option.some.inj hcd.symm
        exact ⟨congrArg Prod.fst this,
          congrArg Prod.fst (congrArg Prod.snd this),
          congrArg Prod.snd (congrArg Prod.snd this)⟩
      exact hop hcop

/-- C2 counterexample: in the nested scenario, committing a rollback to
record 1 from the state `dbN1` (where record 3 is covered by rollback 4) and
then restoring the resulting rollback record 5 does return the pre-rollback
file content `"b"`, but it does not return the coverage flags to their
pre-rollback state: record 3's coverage was overwritten from 4 to 5 by the
commit and is cleared to null by the restore, not reset to 4. -/
theorem claim2_counterexample :
    (executeRollback [("w", dbN1)] diskN1 1 none).toOption.map (fun o => o.ws) =
      some [("w", dbN2)] ∧
    canRestore dbN2.records recN5 = true ∧
    (handleRestore [("w", dbN2)] diskN2 5 none).toOption.map (fun o => o.ws) =
      some [("w", dbN3)] ∧
    (handleRestore [("w", dbN2)] diskN2 5 none).toOption.map
        (fun o => o.disk (pathJoin "w" "a.ts")) = some (some "b") ∧
    (getChangeById dbN1 3).map (fun r => r.covered_by_rollback_id) = some (some 4) ∧
    (getChangeById dbN3 3).map (fun r => r.covered_by_rollback_id) = some none ∧
    ¬ ((getChangeById dbN3 3).map (fun r => r.covered_by_rollback_id) =
        (getChangeById dbN1 3).map (fun r => r.covered_by_rollback_id)) := by
  decide

/-- C2 amended: for a rollback record `R` (latest or not), `handleRestore`
deletes `R`, sets `covered_by_rollback_id` back to null on every record whose
coverage pointed at `R`, and writes `R.old_content` back to the file, so the
file content returns to its pre-rollback value; coverage flags return to
their pre-rollback values only when no record's earlier coverage was
overwritten by `R`'s marking pass (as in Scenario B) — in general a record
that was covered by an earlier rollback and re-marked by `R` ends up
uncovered rather than re-pointing at the earlier rollback. -/
theorem claim2_restore (ws : Workspaces) (disk : Disk) (changeId : Nat)
    (wsName : Option String) (change : CodeChange) (root : String) (db : DB)
    (hfind : findChange ws changeId wsName = some (change, root, db))
    (hop : change.operation_type = .rollback)
    (hinst : lookupDb ws root = some db)
    (hok : db.broken = false) :
    ∃ out newDb,
      handleRestore ws disk changeId wsName = .ok out ∧
      out.disk (pathJoin root change.file_path) = some change.old_content ∧
      lookupDb out.ws root = some newDb ∧
      newDb.records =
        (db.records.map (clearUpdate changeId)).filter (fun r => !(r.id == changeId)) ∧
      (∀ r ∈ newDb.records, r.id ≠ changeId) ∧
      (∀ r ∈ db.records, r.id ≠ changeId → clearUpdate changeId r ∈ newDb.records) := by
  have hclear := clearCoveredByRollback_eq db changeId hok
  have hbroken1 : (clearCoveredByRollback db changeId).1.broken = false := by
    rw [hclear]
    exact hok
  have hdel := deleteChange_eq (clearCoveredByRollback db changeId).1 changeId hbroken1
  have hrecords : ((deleteChange (clearCoveredByRollback db changeId).1 changeId).1).records =
      (db.records.map (clearUpdate changeId)).filter (fun r => !(r.id == changeId)) := by
    rw [hdel, hclear]
  refine ⟨{ ws := setDb ws root
              (deleteChange (clearCoveredByRollback db changeId).1 changeId).1
            disk := writeFileContent disk (pathJoin root change.file_path)
              change.old_content },
          (deleteChange (clearCoveredByRollback db changeId).1 changeId).1,
          handleRestore_ok ws disk changeId wsName change root db db hfind hop hinst,
          ?_, ?_, hrecords, ?_, ?_⟩
  · simp [writeFileContent]
  · exact lookupDb_setDb ws root _ db hinst
  · intro r hr
    rw [hrecords] at hr
    have := (List.mem_filter.mp hr).2
    simpa using this
  · intro r hr hne
    rw [hrecords]
    refine List.mem_filter.mpr ⟨List.mem_map_of_mem _ hr, ?_⟩
    simp [clearUpdate_id, hne]

/-- C2 amended witness: Scenario B — restoring rollback record 3 of
Scenario A returns `"xyz"` to the file, deletes record 3, reactivates record
2 (coverage null again), and record 2 again satisfies `canRollbackTo`. -/
theorem claim2_restore_witness :
    (findChange wsA2 3 none = some (recA3, "w", dbA2) ∧
      recA3.operation_type = .rollback ∧
      lookupDb wsA2 "w" = some dbA2 ∧ dbA2.broken = false) ∧
    (∃ out newDb,
      handleRestore wsA2 diskA2 3 none = .ok out ∧
      out.disk (pathJoin "w" recA3.file_path) = some recA3.old_content ∧
      lookupDb out.ws "w" = some newDb ∧
      newDb.records =
        (dbA2.records.map (clearUpdate 3)).filter (fun r => !(r.id == 3)) ∧
      (∀ r ∈ newDb.records, r.id ≠ 3) ∧
      (∀ r ∈ dbA2.records, r.id ≠ 3 → clearUpdate 3 r ∈ newDb.records)) ∧
    (handleRestore wsA2 diskA2 3 none).toOption.map (fun o => o.ws) =
      some [("w", { records := [recA1, recA2], nextId := 4, broken := false })] ∧
    canRollbackTo [recA1, recA2] recA2 = true :=
  ⟨⟨by decide, rfl, by decide, rfl⟩,
   claim2_restore wsA2 diskA2 3 none recA3 "w" dbA2 (by decide) rfl (by decide) rfl,
   by decide, by decide⟩

/-! The commit phase of rollback (`executeRollback`). -/

theorem length_filter_file_markUpdate (l : List CodeChange) (f g : String)
    (a b : Nat) :
    ((l.map (markUpdate f a b)).filter (fun r => r.file_path == g)).length =
      (l.filter (fun r => r.file_path == g)).length := by
  rw [List.filter_map, List.length_map]
  exact congrArg List.length
    (List.filter_congr (fun r _ => by simp [Function.comp, markUpdate_file_path]))

theorem executeRollback_ok (ws : Workspaces) (disk : Disk) (targetChangeId : Nat)
    (wsName : Option String) (change : CodeChange) (root : String) (db db0 : DB)
    (hf : findChange ws targetChangeId wsName = some (change, root, db))
    (hl : lookupDb ws root = some db0)
    (hok : db.broken = false) :
    executeRollback ws disk targetChangeId wsName =
      .ok { ws := setDb ws root
              (markCoveredByRollback
                { db with
                    records := db.records ++
                      [{ id := db.nextId, file_path := change.file_path,
                         old_content := readFileOrEmpty disk (pathJoin root change.file_path),
                         new_content := change.new_content,
                         diff := generateSimpleDiff
                           (readFileOrEmpty disk (pathJoin root change.file_path))
                           change.new_content,
                         lines_added := 0, lines_removed := 0, batch_id := none,
                         operation_type := .rollback,
                         rollback_to_id := some targetChangeId,
                         covered_by_rollback_id := none }],
                    nextId := db.nextId + 1 }
                change.file_path db.nextId targetChangeId).1
            disk := writeFileContent disk (pathJoin root change.file_path)
              change.new_content
            rollbackId := db.nextId
            writtenContent := change.new_content } := by
  have hins := insertChange_eq db change.file_path
    (readFileOrEmpty disk (pathJoin root change.file_path)) change.new_content
    (generateSimpleDiff (readFileOrEmpty disk (pathJoin root change.file_path))
      change.new_content) 0 0 none .rollback (some targetChangeId) hok
  simp only [executeRollback, hf, hl, hins]

theorem executeRollback_spec (ws : Workspaces) (disk : Disk)
    (targetChangeId : Nat) (wsName : Option String) (change : CodeChange)
    (root : String) (db : DB)
    (hfind : findChange ws targetChangeId wsName = some (change, root, db))
    (hinst : lookupDb ws root = some db)
    (hok : db.broken = false) :
    ∃ out newDb,
      executeRollback ws disk targetChangeId wsName = .ok out ∧
      out.rollbackId = db.nextId ∧
      out.writtenContent = change.new_content ∧
      out.disk (pathJoin root change.file_path) = some change.new_content ∧
      lookupDb out.ws root = some newDb ∧
      newDb.records =
        db.records.map (markUpdate change.file_path db.nextId targetChangeId) ++
          [{ id := db.nextId, file_path := change.file_path,
             old_content := readFileOrEmpty disk (pathJoin root change.file_path),
             new_content := change.new_content,
             diff := generateSimpleDiff
               (readFileOrEmpty disk (pathJoin root change.file_path))
               change.new_content,
             lines_added := 0, lines_removed := 0, batch_id := none,
             operation_type := .rollback, rollback_to_id := some targetChangeId,
             covered_by_rollback_id := none }] ∧
      (∀ r ∈ db.records, r.file_path = change.file_path → targetChangeId < r.id →
        r.id < db.nextId →
        { r with covered_by_rollback_id := some db.nextId } ∈ newDb.records) ∧
      ((newDb.records.filter (fun r => r.file_path == change.file_path)).length =
        (db.records.filter (fun r => r.file_path == change.file_path)).length + 1) := by
  have heq := executeRollback_ok ws disk targetChangeId wsName change root db db
    hfind hinst hok
  set newRec : CodeChange :=
    { id := db.nextId, file_path := change.file_path,
      old_content := readFileOrEmpty disk (pathJoin root change.file_path),
      new_content := change.new_content,
      diff := generateSimpleDiff
        (readFileOrEmpty disk (pathJoin root change.file_path)) change.new_content,
      lines_added := 0, lines_removed := 0, batch_id := none,
      operation_type := .rollback, rollback_to_id := some targetChangeId,
      covered_by_rollback_id := none } with hnewRec
  set db1 : DB :=
    { db with records := db.records ++ [newRec], nextId := db.nextId + 1 } with hdb1
  have hb1 : db1.broken = false := hok
  have hmark := markCoveredByRollback_eq db1 change.file_path db.nextId targetChangeId hb1
  have hfix : markUpdate change.file_path db.nextId targetChangeId newRec = newRec := by
    simp [markUpdate, coveredInterval, hnewRec]
  have hrecords : (markCoveredByRollback db1 change.file_path db.nextId targetChangeId).1.records =
      db.records.map (markUpdate change.file_path db.nextId targetChangeId) ++ [newRec] := by
    rw [hmark]
    show (db.records ++ [newRec]).map _ = _
    rw [List.map_append]
    simp [hfix]
  refine ⟨_, (markCoveredByRollback db1 change.file_path db.nextId targetChangeId).1,
    heq, rfl, rfl, ?_, ?_, hrecords, ?_, ?_⟩
  · simp [writeFileContent]
  · exact lookupDb_setDb ws root _ db hinst
  · intro r hr hfile hlo hhi
    rw [hrecords]
    refine List.mem_append_left _ ?_
    have hci : coveredInterval change.file_path db.nextId targetChangeId r = true := by
      simp [coveredInterval, hfile, hlo, hhi]
    have : markUpdate change.file_path db.nextId targetChangeId r =
        { r with covered_by_rollback_id := some db.nextId } := by
      simp [markUpdate, hci]
    exact this ▸ List.mem_map_of_mem _ hr
  · rw [hrecords, List.filter_append, List.length_append,
      length_filter_file_markUpdate]
    have : List.filter (fun r => r.file_path == change.file_path) [newRec] = [newRec] := by
      simp [hnewRec]
    rw [this]
    rfl

/-- C1: committing a rollback to target `t` found with current on-disk
content `c` appends exactly one new record `R` with
`operation_type = rollback`, `rollback_to_id = t.id`, `old_content = c` and
`new_content = t.new_content`; the store then receives the
`markCoveredByRollback(file_path, R.id, t.id)` pass (whose row update leaves
`R` itself untouched); the per-file record count grows by exactly one, and
the content written to the file equals `t.new_content`. -/
theorem claim1_commit_rollback (ws : Workspaces) (disk : Disk)
    (targetChangeId : Nat) (wsName : Option String) (change : CodeChange)
    (root : String) (db : DB)
    (hfind : findChange ws targetChangeId wsName = some (change, root, db))
    (hinst : lookupDb ws root = some db)
    (hok : db.broken = false) :
    ∃ out newDb,
      executeRollback ws disk targetChangeId wsName = .ok out ∧
      out.rollbackId = db.nextId ∧
      out.writtenContent = change.new_content ∧
      out.disk (pathJoin root change.file_path) = some change.new_content ∧
      lookupDb out.ws root = some newDb ∧
      newDb.records =
        db.records.map (markUpdate change.file_path db.nextId targetChangeId) ++
          [{ id := db.nextId, file_path := change.file_path,
             old_content := readFileOrEmpty disk (pathJoin root change.file_path),
             new_content := change.new_content,
             diff := generateSimpleDiff
               (readFileOrEmpty disk (pathJoin root change.file_path))
               change.new_content,
             lines_added := 0, lines_removed := 0, batch_id := none,
             operation_type := .rollback, rollback_to_id := some targetChangeId,
             covered_by_rollback_id := none }] ∧
      (∀ r ∈ db.records, r.file_path = change.file_path → targetChangeId < r.id →
        r.id < db.nextId →
        { r with covered_by_rollback_id := some db.nextId } ∈ newDb.records) ∧
      ((newDb.records.filter (fun r => r.file_path == change.file_path)).length =
        (db.records.filter (fun r => r.file_path == change.file_path)).length + 1) :=
  executeRollback_spec ws disk targetChangeId wsName change root db hfind hinst hok

/-- C1 witness: Scenario A — rolling back to record 1 with current content
`"xyz"` creates rollback record 3 (`old = "xyz"`, `new = "xy"`), covers
record 2 with 3, and returns `"xy"` as the content to write. -/
theorem claim1_commit_rollback_witness :
    (findChange wsA 1 none = some (recA1, "w", dbA) ∧
      lookupDb wsA "w" = some dbA ∧ dbA.broken = false) ∧
    (∃ out newDb,
      executeRollback wsA diskA 1 none = .ok out ∧
      out.rollbackId = dbA.nextId ∧
      out.writtenContent = recA1.new_content ∧
      out.disk (pathJoin "w" recA1.file_path) = some recA1.new_content ∧
      lookupDb out.ws "w" = some newDb ∧
      newDb.records =
        dbA.records.map (markUpdate recA1.file_path dbA.nextId 1) ++
          [{ id := dbA.nextId, file_path := recA1.file_path,
             old_content := readFileOrEmpty diskA (pathJoin "w" recA1.file_path),
             new_content := recA1.new_content,
             diff := generateSimpleDiff
               (readFileOrEmpty diskA (pathJoin "w" recA1.file_path))
               recA1.new_content,
             lines_added := 0, lines_removed := 0, batch_id := none,
             operation_type := .rollback, rollback_to_id := some 1,
             covered_by_rollback_id := none }] ∧
      (∀ r ∈ dbA.records, r.file_path = recA1.file_path → 1 < r.id →
        r.id < dbA.nextId →
        { r with covered_by_rollback_id := some dbA.nextId } ∈ newDb.records) ∧
      ((newDb.records.filter (fun r => r.file_path == recA1.file_path)).length =
        (dbA.records.filter (fun r => r.file_path == recA1.file_path)).length + 1)) ∧
    (executeRollback wsA diskA 1 none).toOption.map (fun o => o.ws) =
      some [("w", dbA2)] ∧
    (getChangeById dbA2 2).map (fun r => r.covered_by_rollback_id) = some (some 3) ∧
    (getChangeById dbA2 3).map (fun r => (r.operation_type, r.rollback_to_id,
        r.old_content, r.new_content)) = some (.rollback, some 1, "xyz", "xy") :=
  ⟨⟨by decide, by decide, rfl⟩,
   claim1_commit_rollback wsA diskA 1 none recA1 "w" dbA (by decide) (by decide) rfl,
   by decide, by decide, by decide⟩

/-- Scenario D, record 4: the rollback record created by re-targeting
record 1 after it is already the target of rollback record 3. -/
def recD4 : CodeChange :=
  { id := 4, file_path := "a.ts", old_content := "xy", new_content := "xy"
    diff := generateSimpleDiff "xy" "xy", lines_added := 0, lines_removed := 0
    batch_id := none, operation_type := .rollback, rollback_to_id := some 1
    covered_by_rollback_id := none }

/-- Scenario D: the store after the second rollback to record 1 — records 2
and 3 now covered by 4. -/
def dbD2 : DB :=
  { records :=
      [recA1,
       { recA2 with covered_by_rollback_id := some 4 },
       { recA3 with covered_by_rollback_id := some 4 },
       recD4]
    nextId := 5, broken := false }

/-- C4 counterexample (Scenario D): in `dbA2`, record 1 is already the target
of rollback record 3 (`isRollbackTarget` is true), yet `executeRollback` on
record 1 succeeds without any re-validation, inserting rollback record 4 —
no `StaleTargetError` is raised (the controller has no such error path). -/
theorem claim4_counterexample :
    isRollbackTarget dbA2.records recA1 = true ∧
    canRollbackTo dbA2.records recA1 = false ∧
    (executeRollback wsA2 diskA2 1 none).toOption.isSome = true ∧
    (executeRollback wsA2 diskA2 1 none).toOption.map (fun o => o.rollbackId) =
      some 4 ∧
    (executeRollback wsA2 diskA2 1 none).toOption.map (fun o => o.ws) =
      some [("w", dbD2)] := by
  decide

/-- C4 amended: the commit phase performs no re-validation of eligibility:
whenever the target record exists (and its workspace instance is present and
storage is healthy), `executeRollback` commits — inserting a rollback record
pointing at the target — even when `canRollbackTo` is false for the target
(covered, itself a rollback record, or already a rollback target).  The
implementation has no `StaleTargetError` error path at all. -/
theorem claim4_no_revalidation (ws : Workspaces) (disk : Disk)
    (targetChangeId : Nat) (wsName : Option String) (change : CodeChange)
    (root : String) (db : DB)
    (hfind : findChange ws targetChangeId wsName = some (change, root, db))
    (hinst : lookupDb ws root = some db)
    (hok : db.broken = false)
    (hineligible : canRollbackTo db.records change = false) :
    ∃ out newDb,
      executeRollback ws disk targetChangeId wsName = .ok out ∧
      out.rollbackId = db.nextId ∧
      lookupDb out.ws root = some newDb ∧
      ∃ r ∈ newDb.records, r.id = db.nextId ∧ r.operation_type = .rollback ∧
        r.rollback_to_id = some targetChangeId := by
  obtain ⟨out, newDb, h1, h2, _, _, h5, h6, _, _⟩ :=
    executeRollback_spec ws disk targetChangeId wsName change root db hfind hinst hok
  refine ⟨out, newDb, h1, h2, h5, ?_⟩
  rw [h6]
  exact ⟨_, List.mem_append_right _ (List.mem_singleton_self _), rfl, rfl, rfl⟩

/-- C4 amended witness: Scenario D instantiation — the ineligible target
(record 1, already a rollback target) is still committed. -/
theorem claim4_no_revalidation_witness :
    (findChange wsA2 1 none = some (recA1, "w", dbA2) ∧
      lookupDb wsA2 "w" = some dbA2 ∧ dbA2.broken = false ∧
      canRollbackTo dbA2.records recA1 = false) ∧
    (∃ out newDb,
      executeRollback wsA2 diskA2 1 none = .ok out ∧
      out.rollbackId = dbA2.nextId ∧
      lookupDb out.ws "w" = some newDb ∧
      ∃ r ∈ newDb.records, r.id = dbA2.nextId ∧ r.operation_type = .rollback ∧
        r.rollback_to_id = some 1) :=
  ⟨⟨by decide, by decide, rfl, by decide⟩,
   claim4_no_revalidation wsA2 diskA2 1 none recA1 "w" dbA2 (by decide) (by decide)
     rfl (by decide)⟩

/-- C5 counterexample: in the nested scenario, record 3 is already covered by
rollback 4, yet `markCoveredByRollback "a.ts" 5 1` overwrites its coverage to
5 (the source UPDATE has no `covered_by_rollback_id IS NULL` guard) and its
reported count (3) includes that already-covered record. -/
theorem claim5_counterexample :
    (getChangeById dbN1 3).map (fun r => r.covered_by_rollback_id) = some (some 4) ∧
    (getChangeById (markCoveredByRollback dbN1 "a.ts" 5 1).1 3).map
        (fun r => r.covered_by_rollback_id) = some (some 5) ∧
    ¬ ((getChangeById (markCoveredByRollback dbN1 "a.ts" 5 1).1 3).map
        (fun r => r.covered_by_rollback_id) = some (some 4)) ∧
    (markCoveredByRollback dbN1 "a.ts" 5 1).2 = 3 := by
  decide

/-- C5 amended: `markCoveredByRollback(file_path, rollback_id, rollback_to_id)`
sets `covered_by_rollback_id = rollback_id` on every record of `file_path`
with `rollback_to_id < id < rollback_id` regardless of its current coverage
(overwriting records already covered by an earlier rollback), leaves records
outside that interval unchanged, and returns the number of records in the
interval. -/
theorem claim5_mark_interval (db : DB) (f : String) (rbId rbToId : Nat)
    (hok : db.broken = false) :
    (markCoveredByRollback db f rbId rbToId).2 =
      (db.records.filter (coveredInterval f rbId rbToId)).length ∧
    (markCoveredByRollback db f rbId rbToId).1.records =
      db.records.map (markUpdate f rbId rbToId) ∧
    (∀ r ∈ db.records, r.file_path = f → rbToId < r.id → r.id < rbId →
      { r with covered_by_rollback_id := some rbId } ∈
        (markCoveredByRollback db f rbId rbToId).1.records) ∧
    (∀ r ∈ db.records, coveredInterval f rbId rbToId r = false →
      r ∈ (markCoveredByRollback db f rbId rbToId).1.records) := by
  rw [markCoveredByRollback_eq db f rbId rbToId hok]
  refine ⟨rfl, rfl, ?_, ?_⟩
  · intro r hr hfile hlo hhi
    have hci : coveredInterval f rbId rbToId r = true := by
      simp [coveredInterval, hfile, hlo, hhi]
    have : markUpdate f rbId rbToId r = { r with covered_by_rollback_id := some rbId } := by
      simp [markUpdate, hci]
    exact this ▸ List.mem_map_of_mem _ hr
  · intro r hr hci
    have : markUpdate f rbId rbToId r = r := by
      simp [markUpdate, hci]
    exact this ▸ List.mem_map_of_mem _ hr

/-- C5 amended witness: the nested scenario instantiation. -/
theorem claim5_mark_interval_witness :
    dbN1.broken = false ∧
    ((markCoveredByRollback dbN1 "a.ts" 5 1).2 =
      (dbN1.records.filter (coveredInterval "a.ts" 5 1)).length ∧
    (markCoveredByRollback dbN1 "a.ts" 5 1).1.records =
      dbN1.records.map (markUpdate "a.ts" 5 1) ∧
    (∀ r ∈ dbN1.records, r.file_path = "a.ts" → 1 < r.id → r.id < 5 →
      { r with covered_by_rollback_id := some 5 } ∈
        (markCoveredByRollback dbN1 "a.ts" 5 1).1.records) ∧
    (∀ r ∈ dbN1.records, coveredInterval "a.ts" 5 1 r = false →
      r ∈ (markCoveredByRollback dbN1 "a.ts" 5 1).1.records)) :=
  ⟨rfl, claim5_mark_interval dbN1 "a.ts" 5 1 rfl⟩

/-- C6 counterexample: on Scenario A's store (record 2 lies in the interval
`(1, 3)`), a second identical `markCoveredByRollback` call reports 1 affected
row again, not 0: the count query ignores the coverage column. -/
theorem claim6_counterexample :
    (markCoveredByRollback dbA "a.ts" 3 1).2 = 1 ∧
    (markCoveredByRollback (markCoveredByRollback dbA "a.ts" 3 1).1 "a.ts" 3 1).2 = 1 ∧
    ¬ ((markCoveredByRollback (markCoveredByRollback dbA "a.ts" 3 1).1 "a.ts" 3 1).2 = 0) := by
  decide

/-- C6 amended: `markCoveredByRollback` is idempotent on the store state — a
second call with identical arguments leaves the store exactly as the first
call left it — but the second call reports the same affected-row count as the
first (the number of records in the open interval), not 0. -/
theorem claim6_mark_idempotent (db : DB) (f : String) (rbId rbToId : Nat)
    (hok : db.broken = false) :
    (markCoveredByRollback (markCoveredByRollback db f rbId rbToId).1 f rbId rbToId).1 =
      (markCoveredByRollback db f rbId rbToId).1 ∧
    (markCoveredByRollback (markCoveredByRollback db f rbId rbToId).1 f rbId rbToId).2 =
      (markCoveredByRollback db f rbId rbToId).2 := by
  have h1 := markCoveredByRollback_eq db f rbId rbToId hok
  have hbroken1 : (markCoveredByRollback db f rbId rbToId).1.broken = false := by
    rw [h1]
    exact hok
  have h2 := markCoveredByRollback_eq (markCoveredByRollback db f rbId rbToId).1
    f rbId rbToId hbroken1
  constructor
  · rw [h2, h1]
    simp only [List.map_map]
    congr 1
    exact List.map_congr_left (fun r _ => markUpdate_markUpdate f rbId rbToId r)
  · rw [h2, h1]
    simp only [List.filter_map]
    rw [List.length_map]
    exact congrArg List.length
      (List.filter_congr (fun r _ => by
        simp [Function.comp, coveredInterval_markUpdate]))

/-- C6 amended witness: Scenario A instantiation. -/
theorem claim6_mark_idempotent_witness :
    dbA.broken = false ∧
    ((markCoveredByRollback (markCoveredByRollback dbA "a.ts" 3 1).1 "a.ts" 3 1).1 =
      (markCoveredByRollback dbA "a.ts" 3 1).1 ∧
    (markCoveredByRollback (markCoveredByRollback dbA "a.ts" 3 1).1 "a.ts" 3 1).2 =
      (markCoveredByRollback dbA "a.ts" 3 1).2) :=
  ⟨rfl, claim6_mark_idempotent dbA "a.ts" 3 1 rfl⟩

/-- C9 counterexample: on a store whose storage is failing, the underlying
operation raises storage-unavailable, yet `markCoveredByRollback` and
`clearCoveredByRollback` return the normal count 0 instead of surfacing the
error (the source catch handlers log and return 0). -/
theorem claim9_counterexample :
    markCoveredByRollbackRaw dbBroken "a.ts" 5 1 = .error .storageUnavailable ∧
    markCoveredByRollback dbBroken "a.ts" 5 1 = (dbBroken, 0) ∧
    clearCoveredByRollbackRaw dbBroken 4 = .error .storageUnavailable ∧
    clearCoveredByRollback dbBroken 4 = (dbBroken, 0) :=
  ⟨rfl, by decide, rfl, by decide⟩

/-- C9 amended: a storage failure is surfaced as a typed error by
`insertChange` (no catch handler in the source), but `markCoveredByRollback`
and `clearCoveredByRollback` catch the underlying storage-unavailable failure
and return a normal count of 0 with the store unchanged — the failure is
swallowed, not propagated. -/
theorem claim9_storage_failure (db : DB) (f filePath oc nc dstr : String)
    (rbId rbToId clearId la lr : Nat) (batchId : Option String) (opType : OpType)
    (rbTo : Option Nat) (hbroken : db.broken = true) :
    markCoveredByRollbackRaw db f rbId rbToId = .error .storageUnavailable ∧
    markCoveredByRollback db f rbId rbToId = (db, 0) ∧
    clearCoveredByRollbackRaw db clearId = .error .storageUnavailable ∧
    clearCoveredByRollback db clearId = (db, 0) ∧
    insertChange db filePath oc nc dstr la lr batchId opType rbTo =
      .error .storageUnavailable := by
  refine ⟨?_, ?_, ?_, ?_, ?_⟩ <;>
    simp [markCoveredByRollbackRaw, markCoveredByRollback,
      clearCoveredByRollbackRaw, clearCoveredByRollback, insertChange, hbroken]

/-- C9 amended witness: the broken store instantiation. -/
theorem claim9_storage_failure_witness :
    dbBroken.broken = true ∧
    (markCoveredByRollbackRaw dbBroken "a.ts" 5 1 = .error .storageUnavailable ∧
    markCoveredByRollback dbBroken "a.ts" 5 1 = (dbBroken, 0) ∧
    clearCoveredByRollbackRaw dbBroken 4 = .error .storageUnavailable ∧
    clearCoveredByRollback dbBroken 4 = (dbBroken, 0) ∧
    insertChange dbBroken "a.ts" "x" "y" "d" 0 0 none .rollback (some 1) =
      .error .storageUnavailable) :=
  ⟨rfl, claim9_storage_failure dbBroken "a.ts" "a.ts" "x" "y" "d" 5 1 4 0 0
    none .rollback (some 1) rfl⟩

/-- C10: `deleteChange` returns `true` whenever the DELETE executes without a
storage failure, including when no record with the given id exists — and in
that case the store is left unchanged. -/
theorem claim10_delete_nonexistent (db : DB) (id : Nat) (hok : db.broken = false) :
    (deleteChange db id).2 = true ∧
    ((∀ r ∈ db.records, r.id ≠ id) → deleteChange db id = (db, true)) := by
  constructor
  · rw [deleteChange_eq db id hok]
  · intro hnone
    rw [deleteChange_eq db id hok]
    have : db.records.filter (fun r => !(r.id == id)) = db.records :=
      List.filter_eq_self.mpr (fun r hr => by simp [hnone r hr])
    rw [this]

/-- C10 witness: deleting the absent id 99 from Scenario A's store. -/
theorem claim10_delete_nonexistent_witness :
    dbA.broken = false ∧ (∀ r ∈ dbA.records, r.id ≠ 99) ∧
    ((deleteChange dbA 99).2 = true ∧
      ((∀ r ∈ dbA.records, r.id ≠ 99) → deleteChange dbA 99 = (dbA, true))) :=
  ⟨rfl, by decide, claim10_delete_nonexistent dbA 99 rfl⟩

/-! Batch rollback lemmas. -/

/-- Batch scenario, record 3 of workspace `"w"`: the rollback record created
by a single-file batch rollback with `now = 99` — it carries the shared
batch id. -/
def recB3 : CodeChange :=
  { id := 3, file_path := "a.ts", old_content := "xyz", new_content := "xy"
    diff := generateSimpleDiff "xyz" "xy", lines_added := 0, lines_removed := 0
    batch_id := some "batch_99", operation_type := .rollback
    rollback_to_id := some 1, covered_by_rollback_id := none }

/-- Batch scenario: Scenario A's store after the one-file batch rollback. -/
def dbB1 : DB :=
  { records := [recA1, { recA2 with covered_by_rollback_id := some 3 }, recB3]
    nextId := 4, broken := false }

/-- Initial batch-loop state for the two-workspace batch scenario. -/
def batchStC : BatchState :=
  { ws := wsC, disk := diskC, successCount := 0, failCount := 0 }

theorem batchRollbackOne_ok_eq (batchId : String) (st : BatchState)
    (change : CodeChange) (root : String) (db : DB)
    (hdb : lookupDb st.ws root = some db)
    (hok : db.broken = false) :
    batchRollbackOne batchId st (change, root) =
      { ws := setDb st.ws root
          (markCoveredByRollback
            { db with
                records := db.records ++
                  [{ id := db.nextId, file_path := change.file_path,
                     old_content := readFileOrEmpty st.disk (pathJoin root change.file_path),
                     new_content := change.new_content,
                     diff := generateSimpleDiff
                       (readFileOrEmpty st.disk (pathJoin root change.file_path))
                       change.new_content,
                     lines_added := 0, lines_removed := 0, batch_id := some batchId,
                     operation_type := .rollback, rollback_to_id := some change.id,
                     covered_by_rollback_id := none }],
                nextId := db.nextId + 1 }
            change.file_path db.nextId change.id).1
        disk := writeFileContent st.disk (pathJoin root change.file_path)
          change.new_content
        successCount := st.successCount + 1
        failCount := st.failCount } := by
  have hins := insertChange_eq db change.file_path
    (readFileOrEmpty st.disk (pathJoin root change.file_path)) change.new_content
    (generateSimpleDiff (readFileOrEmpty st.disk (pathJoin root change.file_path))
      change.new_content) 0 0 (some batchId) .rollback (some change.id) hok
  simp only [batchRollbackOne, hdb, hins]

theorem batchRollbackOne_spec (batchId : String) (st : BatchState)
    (change : CodeChange) (root : String) (db : DB)
    (hdb : lookupDb st.ws root = some db)
    (hok : db.broken = false) :
    ∃ newDb,
      lookupDb (batchRollbackOne batchId st (change, root)).ws root = some newDb ∧
      newDb.records =
        db.records.map (markUpdate change.file_path db.nextId change.id) ++
          [{ id := db.nextId, file_path := change.file_path,
             old_content := readFileOrEmpty st.disk (pathJoin root change.file_path),
             new_content := change.new_content,
             diff := generateSimpleDiff
               (readFileOrEmpty st.disk (pathJoin root change.file_path))
               change.new_content,
             lines_added := 0, lines_removed := 0, batch_id := some batchId,
             operation_type := .rollback, rollback_to_id := some change.id,
             covered_by_rollback_id := none }] ∧
      (batchRollbackOne batchId st (change, root)).successCount =
        st.successCount + 1 := by
  set newRec : CodeChange :=
    { id := db.nextId, file_path := change.file_path,
      old_content := readFileOrEmpty st.disk (pathJoin root change.file_path),
      new_content := change.new_content,
      diff := generateSimpleDiff
        (readFileOrEmpty st.disk (pathJoin root change.file_path)) change.new_content,
      lines_added := 0, lines_removed := 0, batch_id := some batchId,
      operation_type := .rollback, rollback_to_id := some change.id,
      covered_by_rollback_id := none } with hnewRec
  set db1 : DB :=
    { db with records := db.records ++ [newRec], nextId := db.nextId + 1 } with hdb1
  have hb1 : db1.broken = false := hok
  have hmark := markCoveredByRollback_eq db1 change.file_path db.nextId change.id hb1
  have hfix : markUpdate change.file_path db.nextId change.id newRec = newRec := by
    simp [markUpdate, coveredInterval, hnewRec]
  have hone := batchRollbackOne_ok_eq batchId st change root db hdb hok
  refine ⟨(markCoveredByRollback db1 change.file_path db.nextId change.id).1,
    ?_, ?_, ?_⟩
  · rw [hone]
    exact lookupDb_setDb st.ws root _ db hdb
  · rw [hmark]
    show (db.records ++ [newRec]).map _ = _
    rw [List.map_append]
    simp [hfix]
  · rw [hone]

theorem batchRollbackOne_fail_none (batchId : String) (st : BatchState)
    (t : CodeChange × String) (h : lookupDb st.ws t.2 = none) :
    batchRollbackOne batchId st t = { st with failCount := st.failCount + 1 } := by
  simp [batchRollbackOne, h]

theorem batchRollbackOne_fail_broken (batchId : String) (st : BatchState)
    (t : CodeChange × String) (db : DB) (h : lookupDb st.ws t.2 = some db)
    (hb : db.broken = true) :
    batchRollbackOne batchId st t = { st with failCount := st.failCount + 1 } := by
  simp [batchRollbackOne, h, insertChange, hb]

theorem batchRollbackOne_incFail (batchId : String) (st : BatchState)
    (t : CodeChange × String) :
    batchRollbackOne batchId { st with failCount := st.failCount + 1 } t =
      { batchRollbackOne batchId st t with
          failCount := (batchRollbackOne batchId st t).failCount + 1 } := by
  obtain ⟨change, root⟩ := t
  cases h : lookupDb st.ws root with
  | none =>
    rw [batchRollbackOne_fail_none batchId { st with failCount := st.failCount + 1 }
        (change, root) h,
      batchRollbackOne_fail_none batchId st (change, root) h]
  | some db =>
    cases hb : db.broken with
    | true =>
      rw [batchRollbackOne_fail_broken batchId { st with failCount := st.failCount + 1 }
          (change, root) db h hb,
        batchRollbackOne_fail_broken batchId st (change, root) db h hb]
    | false =>
      rw [batchRollbackOne_ok_eq batchId { st with failCount := st.failCount + 1 }
          change root db h hb,
        batchRollbackOne_ok_eq batchId st change root db h hb]

theorem batchRollbackLoop_incFail (batchId : String)
    (targets : List (CodeChange × String)) (st : BatchState) :
    batchRollbackLoop batchId targets { st with failCount := st.failCount + 1 } =
      { batchRollbackLoop batchId targets st with
          failCount := (batchRollbackLoop batchId targets st).failCount + 1 } := by
  induction targets generalizing st with
  | nil => rfl
  | cons t ts ih =>
    show batchRollbackLoop batchId ts
        (batchRollbackOne batchId { st with failCount := st.failCount + 1 } t) = _
    rw [batchRollbackOne_incFail]
    exact ih (batchRollbackOne batchId st t)

theorem batchRollbackOne_counts (batchId : String) (st : BatchState)
    (t : CodeChange × String) :
    (batchRollbackOne batchId st t).successCount +
        (batchRollbackOne batchId st t).failCount =
      st.successCount + st.failCount + 1 := by
  obtain ⟨change, root⟩ := t
  cases h : lookupDb st.ws root with
  | none =>
    rw [batchRollbackOne_fail_none batchId st (change, root) h]
    simp [Nat.add_assoc]
  | some db =>
    cases hb : db.broken with
    | true =>
      rw [batchRollbackOne_fail_broken batchId st (change, root) db h hb]
      simp [Nat.add_assoc]
    | false =>
      rw [batchRollbackOne_ok_eq batchId st change root db h hb]
      simp [Nat.add_right_comm]

theorem batchRollbackLoop_counts (batchId : String)
    (targets : List (CodeChange × String)) (st : BatchState) :
    (batchRollbackLoop batchId targets st).successCount +
        (batchRollbackLoop batchId targets st).failCount =
      st.successCount + st.failCount + targets.length := by
  induction targets generalizing st with
  | nil => rfl
  | cons t ts ih =>
    show (batchRollbackLoop batchId ts (batchRollbackOne batchId st t)).successCount +
        (batchRollbackLoop batchId ts (batchRollbackOne batchId st t)).failCount = _
    rw [ih (batchRollbackOne batchId st t), batchRollbackOne_counts]
    simp only [List.length_cons]
    omega

theorem batchRollbackLoop_append (batchId : String)
    (l1 l2 : List (CodeChange × String)) (st : BatchState) :
    batchRollbackLoop batchId (l1 ++ l2) st =
      batchRollbackLoop batchId l2 (batchRollbackLoop batchId l1 st) :=
  List.foldl_append _ _ _ _

/-- C7 counterexample: a batch rollback (one selected record, `now = 99`)
creates rollback record 3 with `batch_id = "batch_99"` — a rollback record
whose `batch_id` is not absent, contradicting the claim that no
rollback-creating operation ever stores a batch id. -/
theorem claim7_counterexample :
    (handleBatchRollback wsA diskA [(1, none)] 99).ws = [("w", dbB1)] ∧
    (getChangeById dbB1 3).map (fun r => (r.operation_type, r.batch_id)) =
      some (.rollback, some "batch_99") ∧
    ¬ ((getChangeById dbB1 3).map (fun r => r.batch_id) = some none) := by
  decide

/-- C7 amended: a single-file rollback (`executeRollback`) stores a null
`batch_id` on the rollback record it creates, but batch rollback stores the
shared batch id on every rollback record it creates. -/
theorem claim7_rollback_batch_id :
    (∀ (ws : Workspaces) (disk : Disk) (targetChangeId : Nat)
        (wsName : Option String) (change : CodeChange) (root : String) (db : DB),
      findChange ws targetChangeId wsName = some (change, root, db) →
      lookupDb ws root = some db → db.broken = false →
      ∃ out newDb, executeRollback ws disk targetChangeId wsName = .ok out ∧
        lookupDb out.ws root = some newDb ∧
        (newDb.records.getLast?).map (fun r => (r.operation_type, r.batch_id)) =
          some (OpType.rollback, none)) ∧
    (∀ (batchId : String) (st : BatchState) (change : CodeChange) (root : String)
        (db : DB),
      lookupDb st.ws root = some db → db.broken = false →
      ∃ newDb,
        lookupDb (batchRollbackOne batchId st (change, root)).ws root = some newDb ∧
        (newDb.records.getLast?).map (fun r => (r.operation_type, r.batch_id)) =
          some (OpType.rollback, some batchId)) := by
  constructor
  · intro ws disk targetChangeId wsName change root db hfind hinst hok
    obtain ⟨out, newDb, h1, _, _, _, h5, h6, _, _⟩ :=
      executeRollback_spec ws disk targetChangeId wsName change root db hfind hinst hok
    refine ⟨out, newDb, h1, h5, ?_⟩
    rw [h6, List.getLast?_concat]
    rfl
  · intro batchId st change root db hdb hok
    obtain ⟨newDb, h1, h2, _⟩ := batchRollbackOne_spec batchId st change root db hdb hok
    refine ⟨newDb, h1, ?_⟩
    rw [h2, List.getLast?_concat]
    rfl

/-- C7 amended witness: Scenario A single rollback (null batch id) and the
batch scenario step (shared batch id). -/
theorem claim7_rollback_batch_id_witness :
    (findChange wsA 1 none = some (recA1, "w", dbA) ∧
      lookupDb wsA "w" = some dbA ∧ dbA.broken = false ∧
      lookupDb batchStC.ws "wA" = some dbCA ∧ dbCA.broken = false) ∧
    (∃ out newDb, executeRollback wsA diskA 1 none = .ok out ∧
      lookupDb out.ws "w" = some newDb ∧
      (newDb.records.getLast?).map (fun r => (r.operation_type, r.batch_id)) =
        some (OpType.rollback, none)) ∧
    (∃ newDb,
      lookupDb (batchRollbackOne "batch_7" batchStC (recCA1, "wA")).ws "wA" =
        some newDb ∧
      (newDb.records.getLast?).map (fun r => (r.operation_type, r.batch_id)) =
        some (OpType.rollback, some "batch_7")) :=
  ⟨⟨by decide, by decide, rfl, by decide, rfl⟩,
   claim7_rollback_batch_id.1 wsA diskA 1 none recA1 "w" dbA (by decide) (by decide) rfl,
   claim7_rollback_batch_id.2 "batch_7" batchStC recCA1 "wA" dbCA (by decide) rfl⟩

/-- C8: batch rollback is fail-soft per file.  First part: if processing one
target fails (its workspace instance is missing, or its workspace's storage
is failing, at the point the loop reaches it), the batch loop's result is
exactly the result of the loop without that target, plus one failure — the
other targets' inserts, coverage markings and file writes are untouched and
nothing is aborted or undone.  Second part: the handler aggregates per-file
results: success count plus failure count equals the number of per-file
rollback targets. -/
theorem claim8_batch_fail_soft :
    (∀ (batchId : String) (pre : List (CodeChange × String))
        (t : CodeChange × String) (post : List (CodeChange × String))
        (st : BatchState),
      (lookupDb (batchRollbackLoop batchId pre st).ws t.2 = none ∨
        ∃ db, lookupDb (batchRollbackLoop batchId pre st).ws t.2 = some db ∧
          db.broken = true) →
      batchRollbackLoop batchId (pre ++ t :: post) st =
        { batchRollbackLoop batchId (pre ++ post) st with
            failCount := (batchRollbackLoop batchId (pre ++ post) st).failCount + 1 }) ∧
    (∀ (ws : Workspaces) (disk : Disk) (ids : List (Nat × Option String)) (now : Nat),
      (handleBatchRollback ws disk ids now).successCount +
          (handleBatchRollback ws disk ids now).failCount =
        (rollbackTargets (collectChanges ws ids)).length) := by
  constructor
  · intro batchId pre t post st hfail
    have hone : batchRollbackOne batchId (batchRollbackLoop batchId pre st) t =
        { batchRollbackLoop batchId pre st with
            failCount := (batchRollbackLoop batchId pre st).failCount + 1 } := by
      rcases hfail with h | ⟨db, h, hb⟩
      · exact batchRollbackOne_fail_none batchId _ t h
      · exact batchRollbackOne_fail_broken batchId _ t db h hb
    rw [batchRollbackLoop_append, batchRollbackLoop_append]
    show batchRollbackLoop batchId (t :: post) (batchRollbackLoop batchId pre st) = _
    show batchRollbackLoop batchId post
        (batchRollbackOne batchId (batchRollbackLoop batchId pre st) t) = _
    rw [hone, batchRollbackLoop_incFail]
  · intro ws disk ids now
    show (batchRollbackLoop _ _ _).successCount + (batchRollbackLoop _ _ _).failCount = _
    rw [batchRollbackLoop_counts]
    simp

/-- C8 witness: Scenario C — two workspaces, the second one's storage
failing; the loop with the failing target equals the loop without it plus
one failure, workspace A's rollback commits, and the counts report one
success and one failure. -/
theorem claim8_batch_fail_soft_witness :
    (lookupDb (batchRollbackLoop "batch_7" [(recCA1, "wA")] batchStC).ws "wB" = none ∨
      ∃ db, lookupDb (batchRollbackLoop "batch_7" [(recCA1, "wA")] batchStC).ws "wB" =
        some db ∧ db.broken = true) ∧
    batchRollbackLoop "batch_7" ([(recCA1, "wA")] ++ (recCB5, "wB") :: []) batchStC =
      { batchRollbackLoop "batch_7" ([(recCA1, "wA")] ++ []) batchStC with
          failCount :=
            (batchRollbackLoop "batch_7" ([(recCA1, "wA")] ++ []) batchStC).failCount + 1 } ∧
    (handleBatchRollback wsC diskC [(1, none), (5, none)] 7).successCount +
        (handleBatchRollback wsC diskC [(1, none), (5, none)] 7).failCount =
      (rollbackTargets (collectChanges wsC [(1, none), (5, none)])).length ∧
    (handleBatchRollback wsC diskC [(1, none), (5, none)] 7).successCount = 1 ∧
    (handleBatchRollback wsC diskC [(1, none), (5, none)] 7).failCount = 1 :=
  ⟨Or.inr ⟨dbCB, by decide, rfl⟩,
   claim8_batch_fail_soft.1 "batch_7" [(recCA1, "wA")] (recCB5, "wB") [] batchStC
     (Or.inr ⟨dbCB, by decide, rfl⟩),
   claim8_batch_fail_soft.2 wsC diskC [(1, none), (5, none)] 7,
   by decide, by decide⟩

end ReCode
